import Mathlib

/-!
Verification of `pybadges/precalculated_text_measurer.py`.

The module measures the pixel width of a string using precalculated metrics:
a default character width, a per-character width table and a pairwise kerning
table.  Widths are Python floats; we model them as rationals (`ℚ`), and Python
strings as `List Char`.  Python `Mapping` objects are modelled as association
lists queried with `mapGetD`, matching `Mapping.get(key, default)`.
-/

namespace Pybadges

/-- Python `m.get(key, default)` on an association list model of a mapping. -/
def mapGetD {α β : Type} [BEq α] (m : List (α × β)) (key : α) (d : β) : β :=
  match List.lookup key m with
  | some v => v
  | none => d

/-- The measurer object: `default_character_width`, `char_to_width` and
`pair_to_kern`, exactly the three fields stored by `__init__`. -/
structure PrecalculatedTextMeasurer where
  default_character_width : ℚ
  char_to_width : List (Char × ℚ)
  pair_to_kern : List (List Char × ℚ)

/-- `text_width`, transcribed from the source:

    width = 0
    for index, c in enumerate(text):
        width += self._char_to_width.get(c, self._default_character_width)
        width -= self._pair_to_kern.get(text[index:index + 2], 0)
    return width

`enumerate(text)` is `text.enum`; the Python slice `text[index:index+2]` is
`(text.drop index).take 2` (at the last index it has length 1, as in Python). -/
def text_width (m : PrecalculatedTextMeasurer) (text : List Char) : ℚ :=
  text.enum.foldl
    (fun width p =>
      width + mapGetD m.char_to_width p.2 m.default_character_width
            - mapGetD m.pair_to_kern ((text.drop p.1).take 2) 0)
    0

/-- Structural-recursion form of the same loop: at index `i` the current
character is the head of the remaining suffix and `text[i:i+2]` is the
two-element take of that suffix.  Proved equal to `text_width` below. -/
def text_width_rec (m : PrecalculatedTextMeasurer) : List Char → ℚ
  | [] => 0
  | c :: rest =>
      (mapGetD m.char_to_width c m.default_character_width
        - mapGetD m.pair_to_kern (List.take 2 (c :: rest)) 0)
      + text_width_rec m rest

/-- The loop of `text_width` with the measurer threaded through as state.
The body only reads the measurer, so the state component is returned
untouched; this makes the absence of side effects provable. -/
def text_width_run (m : PrecalculatedTextMeasurer) (text : List Char) :
    ℚ × PrecalculatedTextMeasurer :=
  text.enum.foldl
    (fun st p =>
      (st.1 + mapGetD st.2.char_to_width p.2 st.2.default_character_width
            - mapGetD st.2.pair_to_kern ((text.drop p.1).take 2) 0,
       st.2))
    (0, m)

/-- The sequence of keys handed to `self._pair_to_kern.get` during
`text_width(text)`: one slice `text[index:index+2]` per loop index. -/
def kern_lookup_keys (text : List Char) : List (List Char) :=
  (List.range text.length).map (fun i => (text.drop i).take 2)

/-- Concrete table from the spec's worked scenario: default 10, I maps to 5,
J maps to 6, pair IJ kerns by 2. -/
def exampleTable : PrecalculatedTextMeasurer :=
  ⟨10, [('I', 5), ('J', 6)], [([ 'I', 'J' ], 2)]⟩

/-- Concrete table whose kerning map holds a single-character key, the case
the code does not guard against at the last loop index. -/
def oneCharKernTable : PrecalculatedTextMeasurer :=
  ⟨10, [], [([ 'c' ], 1)]⟩

/-- Concrete table with an empty kerning map. -/
def emptyKernTable : PrecalculatedTextMeasurer :=
  ⟨10, [('I', 5), ('J', 6)], []⟩

/-- Model of a parsed JSON document, the result of Python `json.load`. -/
inductive Json where
  | null : Json
  | boolean : Bool → Json
  | num : ℚ → Json
  | str : String → Json
  | arr : List Json → Json
  | obj : List (String × Json) → Json

/-- Wire-format field name for the default character width. -/
def meanKey : String := "mean-character-length"

/-- Wire-format field name for the per-character width mapping. -/
def charKey : String := "character-lengths"

/-- Wire-format field name for the kerning mapping. -/
def kernKey : String := "kerning-pairs"

/-- Errors `from_json` can raise.  In the Python source these are the
exceptions escaping `json.load` and the subscript lookups:
`json.JSONDecodeError` for a syntactically invalid stream, `TypeError` when
the top-level value is not a string-keyed mapping, `KeyError` for a missing
required field.  The spec groups all of them under `DataFormatError`. -/
inductive DataFormatError where
  | jsonDecodeError : DataFormatError
  | typeError : DataFormatError
  | keyError : String → DataFormatError

/-- The three constructor arguments `from_json` passes to
`PrecalculatedTextMeasurer(...)`.  Python performs no type checking on the
field values, so they are kept as raw JSON values here. -/
structure RawPrecalculatedTextMeasurer where
  default_character_width : Json
  char_to_width : Json
  pair_to_kern : Json

/-- Python `o[key]` on a JSON object: the value of the first binding of
`key`, if any. -/
def objGet (fields : List (String × Json)) (key : String) : Option Json :=
  List.lookup key fields

/-- Model of `PrecalculatedTextMeasurer.from_json`.  The `TextIO` stream is
modelled by the outcome of `json.load` on it: `none` when the stream is not
syntactically valid JSON, `some j` when it parses to the document `j`.  The
source then evaluates `o['mean-character-length']`, `o['character-lengths']`
and `o['kerning-pairs']` in order and hands them to the constructor. -/
def from_json (stream : Option Json) :
    Except DataFormatError RawPrecalculatedTextMeasurer :=
  match stream with
  | none => Except.error DataFormatError.jsonDecodeError
  | some (Json.obj fields) =>
      match objGet fields meanKey, objGet fields charKey, objGet fields kernKey with
      | some a, some b, some c => Except.ok ⟨a, b, c⟩
      | none, _, _ => Except.error (DataFormatError.keyError meanKey)
      | some _, none, _ => Except.error (DataFormatError.keyError charKey)
      | some _, some _, none => Except.error (DataFormatError.keyError kernKey)
  | some _ => Except.error DataFormatError.typeError

/-- Errors `default()` can raise: a propagated `from_json` failure, or the
`ValueError('could not load default-widths.json')` raised when neither
bundled resource exists (the spec's `ResourceMissingError`). -/
inductive DefaultError where
  | dataFormat : DataFormatError → DefaultError
  | resourceMissing : String → DefaultError

/-- Message of the error raised when neither resource exists. -/
def missingMessage : String := "could not load default-widths.json"

/-- The bundled-resource state `default()` consults.  Each field is `none`
when the corresponding file (`default-widths.json.xz`, decompressed, or
`default-widths.json`) is absent, and `some stream` when it exists, where
`stream` is the text stream it yields, modelled as in `from_json`. -/
structure ResourceEnv where
  xz_resource : Option (Option Json)
  json_resource : Option (Option Json)

/-- Lift a `from_json` outcome into a `default()` outcome. -/
def liftFormat (r : Except DataFormatError RawPrecalculatedTextMeasurer) :
    Except DefaultError RawPrecalculatedTextMeasurer :=
  match r with
  | Except.ok t => Except.ok t
  | Except.error e => Except.error (DefaultError.dataFormat e)

/-- Model of `PrecalculatedTextMeasurer.default`.  Input: the resource
environment and the current `_default_cache`; output: the call's result, the
cache afterwards, and the number of measurer constructions the call
performed (0 or 1), recording the construction side effect.  The source
returns the cache when set; otherwise it tries the compressed resource, then
the plain one, assigning the cache only after `from_json` succeeds, and
raises when neither resource exists. -/
def defaultMeasurer (env : ResourceEnv)
    (cache : Option RawPrecalculatedTextMeasurer) :
    Except DefaultError RawPrecalculatedTextMeasurer
      × Option RawPrecalculatedTextMeasurer × Nat :=
  match cache with
  | some t => (Except.ok t, some t, 0)
  | none =>
      match env.xz_resource with
      | some stream =>
          match from_json stream with
          | Except.ok t => (Except.ok t, some t, 1)
          | Except.error e => (Except.error (DefaultError.dataFormat e), none, 0)
      | none =>
          match env.json_resource with
          | some stream =>
              match from_json stream with
              | Except.ok t => (Except.ok t, some t, 1)
              | Except.error e => (Except.error (DefaultError.dataFormat e), none, 0)
          | none =>
              (Except.error (DefaultError.resourceMissing missingMessage), none, 0)

/-- Total number of measurer constructions performed by `n` successive calls
to `default()` starting from the cache state `cache`, with the resource
environment fixed for the whole process lifetime. -/
def defaultCalls (env : ResourceEnv) :
    Nat → Option RawPrecalculatedTextMeasurer → Nat
  | 0, _ => 0
  | n + 1, cache =>
      (defaultMeasurer env cache).2.2
        + defaultCalls env n (defaultMeasurer env cache).2.1

/-- A syntactically valid stream holding all three required fields. -/
def goodStream : Option Json :=
  some (Json.obj [(meanKey, Json.num 10), (charKey, Json.obj []), (kernKey, Json.obj [])])

/-- Environment where only the compressed resource exists. -/
def envXZ : ResourceEnv := ⟨some goodStream, none⟩

/-- Environment where neither resource exists. -/
def emptyEnv : ResourceEnv := ⟨none, none⟩

end Pybadges

namespace Pybadges

theorem enumFrom_foldl_text_width (m : PrecalculatedTextMeasurer) (text : List Char) :
    ∀ (suffix : List Char) (k : Nat) (init : ℚ), text.drop k = suffix →
      (List.enumFrom k suffix).foldl
        (fun width p =>
          width + mapGetD m.char_to_width p.2 m.default_character_width
                - mapGetD m.pair_to_kern ((text.drop p.1).take 2) 0)
        init
      = init + text_width_rec m suffix := by
  intro suffix
  induction suffix with
  | nil => intro k init h; simp [text_width_rec]
  | cons c rest ih =>
      intro k init h
      have h2 : text.drop (k + 1) = rest := by
        rw [← List.drop_drop 1 k text, h]
        simp
      have h3 : (text.drop k).take 2 = List.take 2 (c :: rest) := by rw [h]
      show List.foldl _ _ ((k, c) :: List.enumFrom (k + 1) rest) = _
      rw [List.foldl_cons, ih (k + 1) _ h2]
      simp only [text_width_rec, h3]
      ring

theorem text_width_eq_rec (m : PrecalculatedTextMeasurer) (text : List Char) :
    text_width m text = text_width_rec m text := by
  have h := enumFrom_foldl_text_width m text text 0 0 (List.drop_zero text)
  simpa [text_width] using h

theorem kern_lookup_keys_cons (c : Char) (rest : List Char) :
    kern_lookup_keys (c :: rest) = List.take 2 (c :: rest) :: kern_lookup_keys rest := by
  simp [kern_lookup_keys, List.range_succ_eq_map, List.map_map, Function.comp]

/-- C1: for every measurer and string, `text_width(text)` is the sum of the
per-character widths (with default fallback) minus the sum of the kerning
values looked up for each sliding-window slice `text[i:i+2]` (length 1 at the
last index); in particular the empty string yields 0. -/
theorem text_width_formula (m : PrecalculatedTextMeasurer) (text : List Char) :
    text_width m text
      = (text.map (fun c => mapGetD m.char_to_width c m.default_character_width)).sum
        - ((kern_lookup_keys text).map (fun key => mapGetD m.pair_to_kern key 0)).sum
    ∧ text_width m ([] : List Char) = 0 := by
  constructor
  · rw [text_width_eq_rec]
    induction text with
    | nil => simp [text_width_rec, kern_lookup_keys]
    | cons c rest ih =>
        rw [kern_lookup_keys_cons]
        simp only [text_width_rec, List.map_cons, List.sum_cons, ih]
        ring
  · rw [text_width_eq_rec]
    rfl

/-- Claim C2, counterexample: with a single-character key in `pair_to_kern`,
measuring that one-character string does not return the per-character width
lookup — the final-index kerning slice has length 1 and matches the key. -/
theorem single_char_not_pure_lookup :
    text_width oneCharKernTable [ 'c' ]
      ≠ mapGetD oneCharKernTable.char_to_width 'c'
          oneCharKernTable.default_character_width := by
  rw [text_width_eq_rec]
  simp [text_width_rec, oneCharKernTable, mapGetD, List.lookup]

/-- Claim C2, amended: for a single character `c`, `text_width([c])` is the
per-character width lookup minus the kerning lookup of the length-1 slice
`[c]` (which is 0 unless `pair_to_kern` holds the single-character key). -/
theorem single_char_width (m : PrecalculatedTextMeasurer) (c : Char) :
    text_width m [c]
      = mapGetD m.char_to_width c m.default_character_width
        - mapGetD m.pair_to_kern [c] 0 := by
  rw [text_width_eq_rec]
  simp [text_width_rec]

/-- Claim C3, counterexample: on a one-character input the single kerning
lookup uses a key of length 1, so not every kerning lookup key has exactly
two characters. -/
theorem kern_key_length_one_exists :
    ¬ (∀ key ∈ kern_lookup_keys [ 'a' ], key.length = 2) := by
  decide

/-- Claim C3, amended: every kerning lookup key is the slice
`text[i:i+2]`; it has exactly two characters at every index except the last,
where it has exactly one. -/
theorem kern_key_lengths (text : List Char) (i : Nat) (h : i < text.length) :
    ∃ key, (kern_lookup_keys text).get? i = some key
      ∧ key.length = (if i + 1 = text.length then 1 else 2) := by
  refine ⟨(text.drop i).take 2, ?_, ?_⟩
  · rw [kern_lookup_keys, List.get?_eq_getElem?]
    simp [List.getElem?_map]
    exact ⟨i, List.getElem?_range h, rfl⟩
  · rw [List.length_take, List.length_drop]
    split <;> omega

/-- Witness for `kern_key_lengths` at the concrete input "ab", index 1. -/
theorem kern_key_lengths_witness :
    ∃ key, (kern_lookup_keys [ 'a', 'b' ]).get? 1 = some key
      ∧ key.length = (if 1 + 1 = List.length [ 'a', 'b' ] then 1 else 2) :=
  kern_key_lengths [ 'a', 'b' ] 1 (by decide)

/-- Claim C4, counterexample: when `pair_to_kern` holds the single-character
key "c", `text_width("abc")` also subtracts that entry for the final-index
slice, so it differs from `w(a)+w(b)+w(c)-kern("ab")-kern("bc")`. -/
theorem three_char_formula_fails :
    text_width oneCharKernTable [ 'a', 'b', 'c' ]
      ≠ mapGetD oneCharKernTable.char_to_width 'a'
          oneCharKernTable.default_character_width
        + mapGetD oneCharKernTable.char_to_width 'b'
            oneCharKernTable.default_character_width
        + mapGetD oneCharKernTable.char_to_width 'c'
            oneCharKernTable.default_character_width
        - mapGetD oneCharKernTable.pair_to_kern [ 'a', 'b' ] 0
        - mapGetD oneCharKernTable.pair_to_kern [ 'b', 'c' ] 0 := by
  rw [text_width_eq_rec]
  simp [text_width_rec, oneCharKernTable, mapGetD, List.lookup]
  norm_num

/-- Claim C4, amended: for a three-character string `xyz`, the width is
`w(x)+w(y)+w(z)-kern("xy")-kern("yz")-kern("z")`, the last term being the
unguarded length-1 lookup at the final index; and when the characters are
pairwise adjacent-distinct the non-adjacent pair "xz" is never among the
kerning lookup keys. -/
theorem three_char_width (m : PrecalculatedTextMeasurer) (x y z : Char) :
    text_width m [x, y, z]
      = mapGetD m.char_to_width x m.default_character_width
        + mapGetD m.char_to_width y m.default_character_width
        + mapGetD m.char_to_width z m.default_character_width
        - mapGetD m.pair_to_kern [x, y] 0
        - mapGetD m.pair_to_kern [y, z] 0
        - mapGetD m.pair_to_kern [z] 0
    ∧ (x ≠ y → y ≠ z → [x, z] ∉ kern_lookup_keys [x, y, z]) := by
  constructor
  · rw [text_width_eq_rec]
    simp only [text_width_rec]
    norm_num
    ring
  · intro hxy hyz hmem
    have e : kern_lookup_keys [x, y, z] = [[x, y], [y, z], [z]] := rfl
    rw [e] at hmem
    simp only [List.mem_cons] at hmem
    rcases hmem with h1 | h2 | h3 | h4
    · injection h1 with hx ht
      injection ht with hz _
      exact hyz hz.symm
    · injection h2 with hx _
      exact hxy hx
    · injection h3 with _ ht
      exact List.cons_ne_nil z [] ht
    · exact absurd h4 (List.not_mem_nil _)

/-- Witness for `three_char_width` at the concrete input "IJI" over the
spec's example table. -/
theorem three_char_width_witness :
    text_width exampleTable [ 'I', 'J', 'I' ]
      = mapGetD exampleTable.char_to_width 'I'
          exampleTable.default_character_width
        + mapGetD exampleTable.char_to_width 'J'
            exampleTable.default_character_width
        + mapGetD exampleTable.char_to_width 'I'
            exampleTable.default_character_width
        - mapGetD exampleTable.pair_to_kern [ 'I', 'J' ] 0
        - mapGetD exampleTable.pair_to_kern [ 'J', 'I' ] 0
        - mapGetD exampleTable.pair_to_kern [ 'I' ] 0
    ∧ [ 'I', 'I' ] ∉ kern_lookup_keys [ 'I', 'J', 'I' ] :=
  ⟨(three_char_width exampleTable 'I' 'J' 'I').1,
   (three_char_width exampleTable 'I' 'J' 'I').2 (by decide) (by decide)⟩

theorem text_width_run_general (m : PrecalculatedTextMeasurer) (text : List Char) :
    ∀ (l : List (Nat × Char)) (init : ℚ),
      l.foldl
        (fun st p =>
          (st.1 + mapGetD st.2.char_to_width p.2 st.2.default_character_width
                - mapGetD st.2.pair_to_kern ((text.drop p.1).take 2) 0,
           st.2))
        (init, m)
      = (l.foldl
          (fun width p =>
            width + mapGetD m.char_to_width p.2 m.default_character_width
                  - mapGetD m.pair_to_kern ((text.drop p.1).take 2) 0)
          init,
         m) := by
  intro l
  induction l with
  | nil => intro init; rfl
  | cons p rest ih => intro init; rw [List.foldl_cons, List.foldl_cons, ih]

/-- Claim C5: `text_width` is total and pure.  Running the loop with the
measurer threaded through as state always terminates with the computed
width and returns the measurer unchanged — the call has no observable
effect on the table. -/
theorem text_width_total_pure (m : PrecalculatedTextMeasurer) (text : List Char) :
    text_width_run m text = (text_width m text, m) := by
  rw [text_width_run, text_width]
  exact text_width_run_general m text text.enum 0

/-- Claim C10: when the kerning map is empty, `text_width` is a monoid
homomorphism from strings under concatenation to rationals under addition:
it maps `""` to 0 and concatenation to addition. -/
theorem text_width_additive (m : PrecalculatedTextMeasurer)
    (hk : m.pair_to_kern = []) :
    (∀ s t : List Char, text_width m (s ++ t) = text_width m s + text_width m t)
    ∧ text_width m ([] : List Char) = 0 := by
  have hz : ∀ key, mapGetD m.pair_to_kern key (0 : ℚ) = 0 := by
    intro key; rw [hk]; rfl
  constructor
  · intro s t
    rw [text_width_eq_rec, text_width_eq_rec, text_width_eq_rec]
    induction s with
    | nil => simp [text_width_rec]
    | cons c rest ih =>
        rw [List.cons_append]
        simp only [text_width_rec, hz, ih]
        ring
  · rw [text_width_eq_rec]; rfl

/-- Witness for `text_width_additive` over a concrete table with an empty
kerning map and the strings "I" and "J". -/
theorem text_width_additive_witness :
    text_width emptyKernTable ([ 'I' ] ++ [ 'J' ])
      = text_width emptyKernTable [ 'I' ] + text_width emptyKernTable [ 'J' ]
    ∧ text_width emptyKernTable ([] : List Char) = 0 :=
  ⟨(text_width_additive emptyKernTable rfl).1 [ 'I' ] [ 'J' ],
   (text_width_additive emptyKernTable rfl).2⟩

/-- Claim C6: `from_json` succeeds exactly when the stream is syntactically
valid, its document is an object, and all three required fields are present;
the returned measurer carries precisely the three decoded field values.  In
every other case it fails with a `DataFormatError`, never silently yielding
a zero-valued table. -/
theorem from_json_ok_iff (stream : Option Json)
    (t : RawPrecalculatedTextMeasurer) :
    from_json stream = Except.ok t ↔
      ∃ fields, stream = some (Json.obj fields)
        ∧ objGet fields meanKey = some t.default_character_width
        ∧ objGet fields charKey = some t.char_to_width
        ∧ objGet fields kernKey = some t.pair_to_kern := by
  obtain ⟨ta, tb, tc⟩ := t
  cases stream with
  | none => simp [from_json]
  | some j =>
      cases j with
      | obj fields =>
          rcases hA : objGet fields meanKey with _ | a <;>
          rcases hB : objGet fields charKey with _ | b <;>
          rcases hC : objGet fields kernKey with _ | c <;>
            simp [from_json, hA, hB, hC]
      | null => simp [from_json]
      | boolean v => simp [from_json]
      | num q => simp [from_json]
      | str s => simp [from_json]
      | arr xs => simp [from_json]

/-- Claim C7: `default()` consults the compressed resource first; the plain
resource is consulted only when the compressed one is absent; and when
neither resource is present the call fails with the resource-missing error,
never falling back to an empty table. -/
theorem default_resolution (env : ResourceEnv) :
    (∀ stream, env.xz_resource = some stream →
        (defaultMeasurer env none).1 = liftFormat (from_json stream))
    ∧ (env.xz_resource = none → ∀ stream, env.json_resource = some stream →
        (defaultMeasurer env none).1 = liftFormat (from_json stream))
    ∧ (env.xz_resource = none → env.json_resource = none →
        (defaultMeasurer env none).1
          = Except.error (DefaultError.resourceMissing missingMessage)) := by
  refine ⟨?_, ?_, ?_⟩
  · intro stream hx
    cases h : from_json stream <;> simp [defaultMeasurer, hx, h, liftFormat]
  · intro hx stream hj
    cases h : from_json stream <;> simp [defaultMeasurer, hx, hj, h, liftFormat]
  · intro hx hj
    simp [defaultMeasurer, hx, hj]

/-- Witness for `default_resolution`: an environment holding only the
compressed resource resolves through it. -/
theorem default_resolution_witness :
    (defaultMeasurer envXZ none).1 = liftFormat (from_json goodStream) :=
  (default_resolution envXZ).1 goodStream rfl

theorem defaultMeasurer_cached (env : ResourceEnv)
    (t : RawPrecalculatedTextMeasurer) :
    defaultMeasurer env (some t) = (Except.ok t, some t, 0) := rfl

theorem defaultCalls_cached (env : ResourceEnv) :
    ∀ (n : Nat) (t : RawPrecalculatedTextMeasurer),
      defaultCalls env n (some t) = 0 := by
  intro n
  induction n with
  | zero => intro t; rfl
  | succ k ih => intro t; simp [defaultCalls, defaultMeasurer_cached, ih]

theorem defaultMeasurer_none_shape (env : ResourceEnv) :
    (∃ t, defaultMeasurer env none = (Except.ok t, some t, 1))
    ∨ (∃ e, defaultMeasurer env none = (Except.error e, none, 0)) := by
  rcases hx : env.xz_resource with _ | stream
  · rcases hj : env.json_resource with _ | stream
    · right
      exact ⟨DefaultError.resourceMissing missingMessage,
             by simp [defaultMeasurer, hx, hj]⟩
    · cases h : from_json stream with
      | ok t => left; exact ⟨t, by simp [defaultMeasurer, hx, hj, h]⟩
      | error e =>
          right
          exact ⟨DefaultError.dataFormat e, by simp [defaultMeasurer, hx, hj, h]⟩
  · cases h : from_json stream with
    | ok t => left; exact ⟨t, by simp [defaultMeasurer, hx, h]⟩
    | error e =>
        right
        exact ⟨DefaultError.dataFormat e, by simp [defaultMeasurer, hx, h]⟩

theorem defaultCalls_stuck (env : ResourceEnv) (e : DefaultError)
    (h : defaultMeasurer env none = (Except.error e, none, 0)) :
    ∀ n, defaultCalls env n none = 0 := by
  intro n
  induction n with
  | zero => rfl
  | succ k ih => simp [defaultCalls, h, ih]

/-- Claim C8: the default cache is built at most once.  Any number of
successive `default()` calls starting from an unset cache performs at most
one measurer construction, and a call finding the cache set returns the
cached table unchanged with zero constructions. -/
theorem default_cache_at_most_once (env : ResourceEnv) (n : Nat)
    (t : RawPrecalculatedTextMeasurer) :
    defaultCalls env n none ≤ 1
    ∧ defaultMeasurer env (some t) = (Except.ok t, some t, 0) := by
  refine ⟨?_, rfl⟩
  cases n with
  | zero => simp [defaultCalls]
  | succ k =>
      rcases defaultMeasurer_none_shape env with ⟨t0, h⟩ | ⟨e, h⟩
      · simp [defaultCalls, h, defaultCalls_cached]
      · simp [defaultCalls, h, defaultCalls_stuck env e h]

/-- Claim C9: when neither bundled resource exists, `default()` raises with
the cache left unset, so a later call attempts construction again. -/
theorem default_failure_no_cache (env : ResourceEnv)
    (hx : env.xz_resource = none) (hj : env.json_resource = none) :
    defaultMeasurer env none
      = (Except.error (DefaultError.resourceMissing missingMessage), none, 0) := by
  simp [defaultMeasurer, hx, hj]

/-- Witness for `default_failure_no_cache` at the concrete empty
environment. -/
theorem default_failure_no_cache_witness :
    defaultMeasurer emptyEnv none
      = (Except.error (DefaultError.resourceMissing missingMessage), none, 0) :=
  default_failure_no_cache emptyEnv rfl rfl

end Pybadges
